import Mathlib

/-!
Shallow embedding of the debug-adapter lifecycle core
(`DebugAdapterContributionRegistry`, `DebugAdapterSessionManager`,
`DebugServiceImpl`) of the Theia debug backend.

The TypeScript classes keep their state in JavaScript `Map` objects; we model
such a map as an association list `List (String × α)` together with operations
`jsMapSet`, `jsMapGet`, `jsMapDelete`, `jsMapValues` mirroring the semantics of
`Map.set`, `Map.get`, `Map.delete` and `Array.from(map.values())`:
`set` updates an existing key in place (preserving insertion order) and appends
a fresh key at the end; `delete` removes the entry if present; `values` lists
the stored values in insertion order.

The freshly generated UUID of `DebugAdapterSessionManager.create` is passed in
as an explicit `sessionId` argument; the asynchronous transport-level handshake
`session.start()` is modelled by a `startResult` field of the session recording
the outcome the external transport collaborator reports.
-/

/-- JavaScript `Map.prototype.set`: update in place if the key is present,
otherwise append the new entry at the end. -/
def jsMapSet (m : List (String × α)) (k : String) (v : α) : List (String × α) :=
  if m.any (fun p => p.1 == k) then
    m.map (fun p => if p.1 == k then (k, v) else p)
  else
    m ++ [(k, v)]

/-- JavaScript `Map.prototype.get`: the value stored under `k`, if any. -/
def jsMapGet (m : List (String × α)) (k : String) : Option α :=
  (m.find? (fun p => p.1 == k)).map Prod.snd

/-- JavaScript `Map.prototype.delete` (the returned boolean is unused by the
source, so we return only the updated map). -/
def jsMapDelete (m : List (String × α)) (k : String) : List (String × α) :=
  m.filter (fun p => !(p.1 == k))

/-- `Array.from(map.values())`: the stored values in insertion order. -/
def jsMapValues (m : List (String × α)) : List α :=
  m.map Prod.snd

/-- Errors surfaced by this subsystem: the registry's unknown-adapter-type
error (`new Error("Debug adapter '...' isn't registered.")`), an arbitrary
contributor-raised error, and a transport-level launch/handshake failure. -/
inductive DebugError where
  | unknownAdapterType (debugType : String)
  | contributorError (message : String)
  | launchFailed (message : String)
deriving DecidableEq, Repr

/-- `DebugConfiguration` from `debug-common`: a `type` discriminator, a `name`,
and contributor-specific extra fields. -/
structure DebugConfiguration where
  type : String
  name : String
  extra : List (String × String) := []
deriving DecidableEq, Repr

/-- `DebugAdapterExecutable`: how to spawn the adapter backend. -/
structure DebugAdapterExecutable where
  program : String
  args : List String := []
deriving DecidableEq, Repr

deriving instance DecidableEq for Except

/-- `DebugAdapterSession` (interface from `debug-model`, consumed here): it
carries its identifier and, for the purposes of this embedding, the outcome
that its transport-level `start()` handshake reports. -/
structure DebugAdapterSession where
  id : String
  startResult : Except DebugError Unit := .ok ()
deriving DecidableEq, Repr

/-- `DebugAdapterSessionFactory` (interface from `debug-model`):
`get(sessionId, debugConfiguration, executable) -> DebugAdapterSession`. -/
structure DebugAdapterSessionFactory where
  get : String → DebugConfiguration → DebugAdapterExecutable → DebugAdapterSession

/-- `DebugAdapterContribution`: the capability bundle a plugin registers for
one debug type.  `provideDebugConfigurations` is a property in the source (the
registry reads it without calling it), so it is a plain list; the two
per-configuration operations may throw contributor-defined errors, so they
return `Except`. -/
structure DebugAdapterContribution where
  debugType : String
  provideDebugConfigurations : List DebugConfiguration
  resolveDebugConfiguration : DebugConfiguration → Except DebugError DebugConfiguration
  provideDebugAdapterExecutable : DebugConfiguration → Except DebugError DebugAdapterExecutable
  debugAdapterSessionFactory : Option DebugAdapterSessionFactory

/-- `DebugAdapterContributionRegistry`: its single field is the `contribs` map
built in the constructor. -/
structure DebugAdapterContributionRegistry where
  contribs : List (String × DebugAdapterContribution)

/-- The registry constructor: `for contrib of contributions.getContributions()
{ this.contribs.set(contrib.debugType, contrib) }`. -/
def buildRegistry (contributions : List DebugAdapterContribution) :
    DebugAdapterContributionRegistry :=
  ⟨contributions.foldl (fun m contrib => jsMapSet m contrib.debugType contrib) []⟩

/-- `DebugAdapterContributionRegistry.debugTypes`. -/
def DebugAdapterContributionRegistry.debugTypes
    (reg : DebugAdapterContributionRegistry) : List String :=
  reg.contribs.map Prod.fst

/-- `DebugAdapterContributionRegistry.provideDebugConfigurations`: returns the
contributor's templates, or throws the unknown-adapter-type error. -/
def DebugAdapterContributionRegistry.provideDebugConfigurations
    (reg : DebugAdapterContributionRegistry) (debugType : String) :
    Except DebugError (List DebugConfiguration) :=
  match jsMapGet reg.contribs debugType with
  | some contrib => .ok contrib.provideDebugConfigurations
  | none => .error (.unknownAdapterType debugType)

/-- `DebugAdapterContributionRegistry.resolveDebugConfiguration`: delegates to
the contributor keyed by `config.type`, or throws the unknown-adapter-type
error. -/
def DebugAdapterContributionRegistry.resolveDebugConfiguration
    (reg : DebugAdapterContributionRegistry) (config : DebugConfiguration) :
    Except DebugError DebugConfiguration :=
  match jsMapGet reg.contribs config.type with
  | some contrib => contrib.resolveDebugConfiguration config
  | none => .error (.unknownAdapterType config.type)

/-- `DebugAdapterContributionRegistry.provideDebugAdapterExecutable`: delegates
to the contributor keyed by `config.type`, or throws the unknown-adapter-type
error. -/
def DebugAdapterContributionRegistry.provideDebugAdapterExecutable
    (reg : DebugAdapterContributionRegistry) (config : DebugConfiguration) :
    Except DebugError DebugAdapterExecutable :=
  match jsMapGet reg.contribs config.type with
  | some contrib => contrib.provideDebugAdapterExecutable config
  | none => .error (.unknownAdapterType config.type)

/-- `DebugAdapterContributionRegistry.debugAdapterSessionFactory`: the
contributor's optional custom factory; `undefined` both when the type is
unregistered (the method falls off its end) and when the contributor declares
no factory. -/
def DebugAdapterContributionRegistry.debugAdapterSessionFactory
    (reg : DebugAdapterContributionRegistry) (debugType : String) :
    Option DebugAdapterSessionFactory :=
  match jsMapGet reg.contribs debugType with
  | some contrib => contrib.debugAdapterSessionFactory
  | none => none

/-- `DebugAdapterSessionManager`: the injected registry and default factory,
plus the `sessions` live map. -/
structure DebugAdapterSessionManager where
  registry : DebugAdapterContributionRegistry
  defaultFactory : DebugAdapterSessionFactory
  sessions : List (String × DebugAdapterSession)

/-- The factory-selection expression of `create`:
`this.registry.debugAdapterSessionFactory(config.type) || this.defaultFactory`. -/
def DebugAdapterSessionManager.selectFactory (st : DebugAdapterSessionManager)
    (config : DebugConfiguration) : DebugAdapterSessionFactory :=
  (st.registry.debugAdapterSessionFactory config.type).getD st.defaultFactory

/-- `DebugAdapterSessionManager.create`.  The freshly generated UUID is the
`sessionId` argument.  Returns the thrown error or the created session,
together with the manager state after the call (unchanged when the registry
throws before the insertion). -/
def DebugAdapterSessionManager.create (st : DebugAdapterSessionManager)
    (sessionId : String) (config : DebugConfiguration) :
    Except DebugError DebugAdapterSession × DebugAdapterSessionManager :=
  let factory := st.selectFactory config
  match st.registry.provideDebugAdapterExecutable config with
  | .error e => (.error e, st)
  | .ok executable =>
    let session := factory.get sessionId config executable
    (.ok session, { st with sessions := jsMapSet st.sessions sessionId session })

/-- `DebugAdapterSessionManager.remove`: `this.sessions.delete(sessionId)`. -/
def DebugAdapterSessionManager.remove (st : DebugAdapterSessionManager)
    (sessionId : String) : DebugAdapterSessionManager :=
  { st with sessions := jsMapDelete st.sessions sessionId }

/-- `DebugAdapterSessionManager.find`: `this.sessions.get(sessionId)`. -/
def DebugAdapterSessionManager.find (st : DebugAdapterSessionManager)
    (sessionId : String) : Option DebugAdapterSession :=
  jsMapGet st.sessions sessionId

/-- `DebugAdapterSessionManager.findAll`: `Array.from(this.sessions.values())`. -/
def DebugAdapterSessionManager.findAll (st : DebugAdapterSessionManager) :
    List DebugAdapterSession :=
  jsMapValues st.sessions

/-- `DebugServiceImpl.start`: create the session, then drive its
transport-level `start()` handshake; resolve with `session.id` on success and
reject with the handshake error on failure.  The source attaches no rejection
handler, so the manager state reaching the caller is the post-`create` state in
both cases. -/
def DebugServiceImpl.start (st : DebugAdapterSessionManager)
    (sessionId : String) (config : DebugConfiguration) :
    Except DebugError String × DebugAdapterSessionManager :=
  match st.create sessionId config with
  | (.error e, st1) => (.error e, st1)
  | (.ok session, st1) =>
    match session.startResult with
    | .ok _ => (.ok session.id, st1)
    | .error e => (.error e, st1)

/-- `DebugServiceImpl.dispose`: with an id, look the session up and call its
`stop()` if found; with no id, call `stop()` on every session of the
`findAll()` snapshot.  `stop()` is fire-and-forget and does not touch the
manager, so `dispose` returns the list of sessions whose termination was
requested together with the (unchanged) manager state. -/
def DebugServiceImpl.dispose (st : DebugAdapterSessionManager)
    (sessionId : Option String) :
    List DebugAdapterSession × DebugAdapterSessionManager :=
  match sessionId with
  | some sid =>
    match st.find sid with
    | some debugSession => ([debugSession], st)
    | none => ([], st)
  | none => (st.findAll, st)

/-!
A reference model for the one claim about JavaScript aliasing:
`findAll` returns `Array.from(this.sessions.values())`, a freshly allocated
array.  `DebugHeap` keeps, next to the manager, the store of arrays that
`findAll` has allocated, so that "the previously returned array" is an
addressable object whose contents can be compared against later states.
-/

/-- The manager state together with the arrays `findAll` has handed out.
`arrays` is the allocation store; a returned array is referred to by its
index. -/
structure DebugHeap where
  manager : DebugAdapterSessionManager
  arrays : List (List DebugAdapterSession)

/-- `findAll` in the heap model: `Array.from(this.sessions.values())`
allocates a fresh array holding a copy of the live map's values and returns a
reference to it. -/
def DebugHeap.findAllAlloc (h : DebugHeap) : DebugHeap × Nat :=
  ({ h with arrays := h.arrays ++ [h.manager.findAll] }, h.arrays.length)

/-- Read the contents of a previously returned array. -/
def DebugHeap.readArray (h : DebugHeap) (r : Nat) : List DebugAdapterSession :=
  h.arrays.getD r []

/-- A caller overwriting the contents of an array it was handed. -/
def DebugHeap.mutateArray (h : DebugHeap) (r : Nat)
    (v : List DebugAdapterSession) : DebugHeap :=
  { h with arrays := h.arrays.set r v }

/-- `remove` lifted to the heap model: it touches only the live map. -/
def DebugHeap.removeH (h : DebugHeap) (sessionId : String) : DebugHeap :=
  { h with manager := h.manager.remove sessionId }

/-- `create` lifted to the heap model: it touches only the live map. -/
def DebugHeap.createH (h : DebugHeap) (sessionId : String)
    (config : DebugConfiguration) : DebugHeap :=
  { h with manager := (h.manager.create sessionId config).2 }

/-!  Helper lemmas about the JavaScript `Map` model. -/

/-- Lookup after `set`: the written key reads back the written value, every
other key is unaffected. -/
theorem jsMapGet_jsMapSet (m : List (String × α)) (k : String) (v : α)
    (t : String) :
    jsMapGet (jsMapSet m k v) t = if t = k then some v else jsMapGet m t := by
  unfold jsMapGet jsMapSet
  by_cases hany : m.any (fun p => p.1 == k)
  · simp only [hany, if_true]
    by_cases htk : t = k
    · subst htk
      have hpred : (fun p : String × α => p.1 == t) ∘
          (fun p : String × α => if p.1 == t then (t, v) else p) =
          fun p : String × α => p.1 == t := by
        funext p
        by_cases hp : p.1 = t <;> simp [hp]
      rw [List.find?_map, hpred]
      rcases List.any_eq_true.mp hany with ⟨p0, hp0mem, hp0k⟩
      have hsome : ∃ q, m.find? (fun p : String × α => p.1 == t) = some q := by
        cases hfind : m.find? (fun p : String × α => p.1 == t) with
        | none =>
          exact absurd (List.find?_eq_none.mp hfind p0 hp0mem) (by simp_all)
        | some q => exact ⟨q, rfl⟩
      rcases hsome with ⟨q, hq⟩
      have hqk : q.1 = t := by
        have := List.find?_some hq
        simpa using this
      simp [hq, hqk]
    · have hpred : (fun p : String × α => p.1 == t) ∘
          (fun p : String × α => if p.1 == k then (k, v) else p) =
          fun p : String × α => p.1 == t := by
        funext p
        by_cases hp : p.1 = k <;> simp [hp]
      rw [List.find?_map, hpred]
      simp only [htk, if_false]
      cases hfind : m.find? (fun p : String × α => p.1 == t) with
      | none => simp
      | some q =>
        have hqt : q.1 = t := by
          have := List.find?_some hfind
          simpa using this
        have hqk : ¬ q.1 = k := by
          rw [hqt]; exact htk
        simp [hqk]
  · simp only [hany, if_false, List.find?_append]
    by_cases htk : t = k
    · subst htk
      have hanyf : m.any (fun p : String × α => p.1 == t) = false :=
        Bool.eq_false_iff.mpr hany
      have hnone : m.find? (fun p : String × α => p.1 == t) = none :=
        List.find?_eq_none.mpr (List.any_eq_false.mp hanyf)
      simp [hnone]
    · have hsing : ([(k, v)] : List (String × α)).find?
          (fun p => p.1 == t) = none := by
        rw [List.find?_cons_of_neg]
        · rfl
        · simp [beq_iff_eq]
          exact fun h => htk h.symm
      simp [hsing, htk]

/-- The written entry is a member of the map after `set`. -/
theorem mem_jsMapSet (m : List (String × α)) (k : String) (v : α) :
    (k, v) ∈ jsMapSet m k v := by
  unfold jsMapSet
  by_cases hany : m.any (fun p => p.1 == k)
  · simp only [hany, if_true]
    rcases List.any_eq_true.mp hany with ⟨p0, hp0mem, hp0k⟩
    refine List.mem_map.mpr ⟨p0, hp0mem, ?_⟩
    simp_all
  · simp [hany]

/-- Lookup in the map built by folding `set` over a contribution list: the
last contribution registered for a type wins; keys untouched by the list fall
back to the initial map. -/
theorem jsMapGet_foldl_jsMapSet (l : List DebugAdapterContribution)
    (m : List (String × DebugAdapterContribution)) (t : String) :
    jsMapGet (l.foldl (fun acc c => jsMapSet acc c.debugType c) m) t =
      ((l.filter (fun c => c.debugType == t)).getLast?).or (jsMapGet m t) := by
  induction l generalizing m with
  | nil => simp
  | cons c cs ih =>
    rw [List.foldl_cons, ih, jsMapGet_jsMapSet, List.filter_cons]
    by_cases hc : c.debugType = t
    · subst hc
      simp only [beq_self_eq_true, if_true, if_pos rfl]
      cases hrest : cs.filter (fun x => x.debugType == c.debugType) with
      | nil => simp
      | cons b bs =>
        cases hlast : (b :: bs).getLast? with
        | none => simp at hlast
        | some q => simp [List.getLast?_cons_cons, hlast]
    · have hct : ¬ t = c.debugType := fun h => hc h.symm
      simp [hc, hct]

/-- Deleting a key twice is the same as deleting it once. -/
theorem jsMapDelete_idempotent (m : List (String × α)) (k : String) :
    jsMapDelete (jsMapDelete m k) k = jsMapDelete m k := by
  unfold jsMapDelete
  rw [List.filter_filter]
  congr 1
  funext p
  cases hp : p.1 == k <;> simp [hp]

/-- Deleting a key that the map does not hold leaves the map unchanged. -/
theorem jsMapDelete_absent (m : List (String × α)) (k : String)
    (h : jsMapGet m k = none) : jsMapDelete m k = m := by
  unfold jsMapDelete
  apply List.filter_eq_self.mpr
  intro p hp
  have hfind : m.find? (fun p => p.1 == k) = none := by
    unfold jsMapGet at h
    cases hf : m.find? (fun p => p.1 == k) with
    | none => rfl
    | some q => rw [hf] at h; simp at h
  have := List.find?_eq_none.mp hfind p hp
  simp_all

/-- The value written by `set` occurs among the map's values. -/
theorem mem_jsMapValues_jsMapSet (m : List (String × α)) (k : String) (v : α) :
    v ∈ jsMapValues (jsMapSet m k v) := by
  unfold jsMapValues
  exact List.mem_map.mpr ⟨(k, v), mem_jsMapSet m k v, rfl⟩

/-!  Concrete fixtures used by the witnesses. -/

/-- A sample configuration of debug type `"node"`. -/
def nodeConfig : DebugConfiguration := { type := "node", name := "Launch" }

/-- A factory producing sessions whose transport handshake succeeds. -/
def okFactory : DebugAdapterSessionFactory :=
  ⟨fun sessionId _ _ => { id := sessionId, startResult := .ok () }⟩

/-- A factory producing sessions whose transport handshake fails. -/
def failingFactory : DebugAdapterSessionFactory :=
  ⟨fun sessionId _ _ =>
    { id := sessionId, startResult := .error (.launchFailed "handshake failed") }⟩

/-- A contributor for type `"node"` declaring no custom session factory. -/
def nodeContribution : DebugAdapterContribution :=
  { debugType := "node"
    provideDebugConfigurations := [nodeConfig]
    resolveDebugConfiguration := fun config => .ok config
    provideDebugAdapterExecutable := fun _ => .ok { program := "node-debug-adapter" }
    debugAdapterSessionFactory := none }

/-- The same contributor, declaring `okFactory` as its custom factory. -/
def nodeContributionCustom : DebugAdapterContribution :=
  { nodeContribution with debugAdapterSessionFactory := some okFactory }

/-- Manager with no registered contributor at all. -/
def emptyManager : DebugAdapterSessionManager :=
  { registry := buildRegistry []
    defaultFactory := okFactory
    sessions := [] }

/-- Manager with the `"node"` contributor and the succeeding default factory. -/
def nodeManager : DebugAdapterSessionManager :=
  { registry := buildRegistry [nodeContribution]
    defaultFactory := okFactory
    sessions := [] }

/-- Manager whose contributor declares a custom factory; the default factory
differs observably from it. -/
def customManager : DebugAdapterSessionManager :=
  { registry := buildRegistry [nodeContributionCustom]
    defaultFactory := failingFactory
    sessions := [] }

/-- Manager whose default factory produces sessions that fail their start
handshake. -/
def failingManager : DebugAdapterSessionManager :=
  { registry := buildRegistry [nodeContribution]
    defaultFactory := failingFactory
    sessions := [] }

/-!  Claim theorems. -/

/-- C2: for a configuration whose type has no registered contributor, `create`
throws the registry's unknown-adapter-type error unchanged and the live-session
map (indeed the whole manager state) is exactly as before the call. -/
theorem create_unknown_type_propagates_and_preserves_state
    (st : DebugAdapterSessionManager) (sessionId : String)
    (config : DebugConfiguration)
    (h : jsMapGet st.registry.contribs config.type = none) :
    st.create sessionId config =
      (.error (.unknownAdapterType config.type), st) := by
  unfold DebugAdapterSessionManager.create
  unfold DebugAdapterContributionRegistry.provideDebugAdapterExecutable
  simp [h]

/-- Witness for C2 at a concrete empty registry. -/
theorem create_unknown_type_propagates_and_preserves_state_witness :
    jsMapGet emptyManager.registry.contribs nodeConfig.type = none ∧
    emptyManager.create "sid-1" nodeConfig =
      (.error (.unknownAdapterType "node"), emptyManager) :=
  ⟨rfl, create_unknown_type_propagates_and_preserves_state
    emptyManager "sid-1" nodeConfig rfl⟩

/-- C7: `remove` is total (it returns a manager state for every input, never
an error), removing an absent id leaves the state unchanged, and removing the
same id twice yields the same state as removing it once. -/
theorem remove_idempotent_and_noop_on_absent
    (st : DebugAdapterSessionManager) (sessionId : String) :
    ((st.remove sessionId).remove sessionId = st.remove sessionId) ∧
    (st.find sessionId = none → st.remove sessionId = st) := by
  constructor
  · unfold DebugAdapterSessionManager.remove
    simp only
    rw [jsMapDelete_idempotent]
  · intro h
    unfold DebugAdapterSessionManager.remove
    rw [jsMapDelete_absent st.sessions sessionId h]

/-- Witness for C7 at a concrete state not holding the removed id. -/
theorem remove_idempotent_and_noop_on_absent_witness :
    ((emptyManager.remove "sid-1").remove "sid-1" = emptyManager.remove "sid-1") ∧
    (emptyManager.find "sid-1" = none → emptyManager.remove "sid-1" = emptyManager) :=
  remove_idempotent_and_noop_on_absent emptyManager "sid-1"

/-- C8: `dispose` with an id absent from the live map does nothing (and throws
nothing); `dispose` with no id issues a stop request to exactly the sessions of
the `findAll()` snapshot taken at call time; and `dispose` never changes the
live-session map, whatever its argument. -/
theorem dispose_missing_id_noop_and_state_preserved
    (st : DebugAdapterSessionManager) (sessionId : String) :
    (st.find sessionId = none →
      DebugServiceImpl.dispose st (some sessionId) = ([], st)) ∧
    (DebugServiceImpl.dispose st none = (st.findAll, st)) ∧
    (∀ oid : Option String, (DebugServiceImpl.dispose st oid).2 = st) := by
  refine ⟨?_, rfl, ?_⟩
  · intro h
    simp [DebugServiceImpl.dispose, h]
  · intro oid
    cases oid with
    | none => rfl
    | some sid =>
      unfold DebugServiceImpl.dispose
      cases h : st.find sid <;> simp [h]

/-- Witness for C8 at a concrete state. -/
theorem dispose_missing_id_noop_and_state_preserved_witness :
    (emptyManager.find "sid-1" = none →
      DebugServiceImpl.dispose emptyManager (some "sid-1") = ([], emptyManager)) ∧
    (DebugServiceImpl.dispose emptyManager none = (emptyManager.findAll, emptyManager)) ∧
    (∀ oid : Option String, (DebugServiceImpl.dispose emptyManager oid).2 = emptyManager) :=
  dispose_missing_id_noop_and_state_preserved emptyManager "sid-1"

/-- C10: the registry's `debugAdapterSessionFactory` lookup is total (its
result type is an `Option`, never an error): an unregistered type yields
`none`, and a registered type yields the contributor's own optional factory —
so a contributor that declares no factory yields the same `none` as an
unregistered type. -/
theorem debugAdapterSessionFactory_never_throws
    (reg : DebugAdapterContributionRegistry) (debugType : String) :
    (jsMapGet reg.contribs debugType = none →
      reg.debugAdapterSessionFactory debugType = none) ∧
    (∀ contrib, jsMapGet reg.contribs debugType = some contrib →
      reg.debugAdapterSessionFactory debugType =
        contrib.debugAdapterSessionFactory) := by
  constructor
  · intro h
    unfold DebugAdapterContributionRegistry.debugAdapterSessionFactory
    rw [h]
  · intro contrib h
    unfold DebugAdapterContributionRegistry.debugAdapterSessionFactory
    rw [h]

/-- Witness for C10: the unregistered case and the registered-without-factory
case produce the same explicit `none`. -/
theorem debugAdapterSessionFactory_never_throws_witness :
    emptyManager.registry.debugAdapterSessionFactory "node" = none ∧
    nodeManager.registry.debugAdapterSessionFactory "node" = none :=
  ⟨(debugAdapterSessionFactory_never_throws emptyManager.registry "node").1 rfl,
   (debugAdapterSessionFactory_never_throws nodeManager.registry "node").2
     nodeContribution rfl⟩

/-- Modelled from the spec: the session-factory contract of `debug-model`
(whose implementation is not part of this excerpt) — `get(id, config,
executable)` constructs "a new Session bound to the identifier", so the
returned session carries the identifier it was given. -/
def factoryHonorsId (factory : DebugAdapterSessionFactory) : Prop :=
  ∀ sessionId config executable,
    (factory.get sessionId config executable).id = sessionId

/-- C3: whenever `create` returns a session, the session is already in the
live map under its generated id — `find` retrieves it and it is contained in
`findAll()`; under the spec's factory contract the session's own `id` field is
that generated id, so `find(s.id)` returns `s` as well. -/
theorem create_inserts_before_returning
    (st : DebugAdapterSessionManager) (sessionId : String)
    (config : DebugConfiguration) (s : DebugAdapterSession)
    (st1 : DebugAdapterSessionManager)
    (hok : st.create sessionId config = (.ok s, st1))
    (hfac : factoryHonorsId (st.selectFactory config)) :
    st1.find sessionId = some s ∧ s ∈ st1.findAll ∧ st1.find s.id = some s := by
  unfold DebugAdapterSessionManager.create at hok
  cases hexec : st.registry.provideDebugAdapterExecutable config with
  | error e => simp [hexec] at hok
  | ok executable =>
    simp only [hexec, Prod.mk.injEq, Except.ok.injEq] at hok
    obtain ⟨hs, hst⟩ := hok
    subst hst
    subst hs
    refine ⟨?_, ?_, ?_⟩
    · show jsMapGet (jsMapSet st.sessions sessionId _) sessionId = some _
      rw [jsMapGet_jsMapSet]
      simp
    · exact mem_jsMapValues_jsMapSet st.sessions sessionId _
    · show jsMapGet (jsMapSet st.sessions sessionId _) _ = some _
      rw [hfac sessionId config executable, jsMapGet_jsMapSet]
      simp

/-- Witness for C3 at a concrete `create` on the `"node"` manager. -/
theorem create_inserts_before_returning_witness :
    (nodeManager.create "sid-1" nodeConfig).2.find "sid-1" =
        some { id := "sid-1", startResult := .ok () } ∧
    ({ id := "sid-1", startResult := .ok () } : DebugAdapterSession) ∈
        (nodeManager.create "sid-1" nodeConfig).2.findAll ∧
    (nodeManager.create "sid-1" nodeConfig).2.find
        ({ id := "sid-1", startResult := .ok () } : DebugAdapterSession).id =
        some { id := "sid-1", startResult := .ok () } :=
  create_inserts_before_returning nodeManager "sid-1" nodeConfig
    { id := "sid-1", startResult := .ok () }
    (nodeManager.create "sid-1" nodeConfig).2 rfl
    (fun _ _ _ => rfl)

/-- C4: conflicts between contributors registered under the same debug type
are resolved deterministically at registry construction: lookup in the built
registry returns exactly the last contribution of that type in the
contribution-provider's order, and building the registry from two same-typed
contributors yields the very same registry value as building it from the later
one alone — subsequent lookups cannot tell the difference. -/
theorem registry_last_registered_wins :
    (∀ (contributions : List DebugAdapterContribution) (t : String),
      jsMapGet (buildRegistry contributions).contribs t =
        (contributions.filter (fun c => c.debugType == t)).getLast?) ∧
    (∀ c1 c2 : DebugAdapterContribution, c1.debugType = c2.debugType →
      buildRegistry [c1, c2] = buildRegistry [c2]) := by
  constructor
  · intro contributions t
    show jsMapGet (contributions.foldl
        (fun acc c => jsMapSet acc c.debugType c) []) t = _
    rw [jsMapGet_foldl_jsMapSet]
    simp [jsMapGet]
  · intro c1 c2 h
    unfold buildRegistry
    simp only [List.foldl_cons, List.foldl_nil]
    congr 1
    show jsMapSet (jsMapSet [] c1.debugType c1) c2.debugType c2 =
      jsMapSet [] c2.debugType c2
    simp [jsMapSet, h]

/-- Witness for C4: with two `"node"` contributors the registry holds the
second, and equals the registry built from the second alone. -/
theorem registry_last_registered_wins_witness :
    jsMapGet (buildRegistry [nodeContribution, nodeContributionCustom]).contribs
        "node" = some nodeContributionCustom ∧
    buildRegistry [nodeContribution, nodeContributionCustom] =
      buildRegistry [nodeContributionCustom] := by
  constructor
  · rw [registry_last_registered_wins.1 [nodeContribution, nodeContributionCustom]
        "node"]
    rfl
  · exact registry_last_registered_wins.2 nodeContribution nodeContributionCustom
      rfl

/-- C5: `create` selects the contributor's custom session factory when the
contributor declares one and the manager's default factory when it declares
none, and the session `create` returns is the one built by that selected
factory. -/
theorem create_factory_fallback
    (st : DebugAdapterSessionManager) (config : DebugConfiguration)
    (contrib : DebugAdapterContribution)
    (hreg : jsMapGet st.registry.contribs config.type = some contrib) :
    (∀ f, contrib.debugAdapterSessionFactory = some f →
        st.selectFactory config = f) ∧
    (contrib.debugAdapterSessionFactory = none →
        st.selectFactory config = st.defaultFactory) ∧
    (∀ (sessionId : String) (s : DebugAdapterSession)
        (st1 : DebugAdapterSessionManager) (executable : DebugAdapterExecutable),
        st.registry.provideDebugAdapterExecutable config = .ok executable →
        st.create sessionId config = (.ok s, st1) →
        s = (st.selectFactory config).get sessionId config executable) := by
  refine ⟨?_, ?_, ?_⟩
  · intro f hf
    unfold DebugAdapterSessionManager.selectFactory
    unfold DebugAdapterContributionRegistry.debugAdapterSessionFactory
    simp [hreg, hf]
  · intro hf
    unfold DebugAdapterSessionManager.selectFactory
    unfold DebugAdapterContributionRegistry.debugAdapterSessionFactory
    simp [hreg, hf]
  · intro sessionId s st1 executable hexec hok
    unfold DebugAdapterSessionManager.create at hok
    simp only [hexec] at hok
    exact ((Except.ok.injEq _ _).mp (congrArg Prod.fst hok)).symm

/-- Witness for C5: the custom-factory contributor makes `create` use its
factory, the factory-less contributor makes it use the manager's default. -/
theorem create_factory_fallback_witness :
    customManager.selectFactory nodeConfig = okFactory ∧
    nodeManager.selectFactory nodeConfig = nodeManager.defaultFactory :=
  ⟨(create_factory_fallback customManager nodeConfig nodeContributionCustom
      rfl).1 okFactory rfl,
   (create_factory_fallback nodeManager nodeConfig nodeContribution
      rfl).2.1 rfl⟩

/-- C6: each of the three registry lookups keyed by a debug type —
`provideDebugConfigurations`, `resolveDebugConfiguration`,
`provideDebugAdapterExecutable` — throws the unknown-adapter-type error exactly
when the type is unregistered; for a registered type each delegates to that
type's contributor and returns the contributor's own result unchanged
(contributor-raised errors included). -/
theorem registry_lookups_unknown_type_exactly
    (reg : DebugAdapterContributionRegistry) (config : DebugConfiguration) :
    (jsMapGet reg.contribs config.type = none →
        reg.provideDebugConfigurations config.type =
          .error (.unknownAdapterType config.type) ∧
        reg.resolveDebugConfiguration config =
          .error (.unknownAdapterType config.type) ∧
        reg.provideDebugAdapterExecutable config =
          .error (.unknownAdapterType config.type)) ∧
    (∀ contrib, jsMapGet reg.contribs config.type = some contrib →
        reg.provideDebugConfigurations config.type =
          .ok contrib.provideDebugConfigurations ∧
        reg.resolveDebugConfiguration config =
          contrib.resolveDebugConfiguration config ∧
        reg.provideDebugAdapterExecutable config =
          contrib.provideDebugAdapterExecutable config) := by
  constructor
  · intro h
    refine ⟨?_, ?_, ?_⟩
    · unfold DebugAdapterContributionRegistry.provideDebugConfigurations
      rw [h]
    · unfold DebugAdapterContributionRegistry.resolveDebugConfiguration
      rw [h]
    · unfold DebugAdapterContributionRegistry.provideDebugAdapterExecutable
      rw [h]
  · intro contrib h
    refine ⟨?_, ?_, ?_⟩
    · unfold DebugAdapterContributionRegistry.provideDebugConfigurations
      rw [h]
    · unfold DebugAdapterContributionRegistry.resolveDebugConfiguration
      rw [h]
    · unfold DebugAdapterContributionRegistry.provideDebugAdapterExecutable
      rw [h]

/-- Witness for C6: the unregistered `"node"` lookup errors, the registered
one delegates to the contributor. -/
theorem registry_lookups_unknown_type_exactly_witness :
    (emptyManager.registry.provideDebugConfigurations nodeConfig.type =
        .error (.unknownAdapterType "node") ∧
      emptyManager.registry.resolveDebugConfiguration nodeConfig =
        .error (.unknownAdapterType "node") ∧
      emptyManager.registry.provideDebugAdapterExecutable nodeConfig =
        .error (.unknownAdapterType "node")) ∧
    (nodeManager.registry.provideDebugConfigurations nodeConfig.type =
        .ok nodeContribution.provideDebugConfigurations ∧
      nodeManager.registry.resolveDebugConfiguration nodeConfig =
        nodeContribution.resolveDebugConfiguration nodeConfig ∧
      nodeManager.registry.provideDebugAdapterExecutable nodeConfig =
        nodeContribution.provideDebugAdapterExecutable nodeConfig) :=
  ⟨(registry_lookups_unknown_type_exactly emptyManager.registry nodeConfig).1
      rfl,
   (registry_lookups_unknown_type_exactly nodeManager.registry nodeConfig).2
      nodeContribution rfl⟩

/-- C9: `findAll` hands out a defensive copy.  In the heap model, the array a
`findAll` call returns keeps holding the values the live map had at call time:
reading it back after a subsequent `remove` or `create` still yields that
snapshot, and overwriting the returned array leaves the manager (hence the
live map) untouched. -/
theorem findAll_returns_defensive_copy (h : DebugHeap) (sessionId k : String)
    (config : DebugConfiguration) (v : List DebugAdapterSession) :
    (h.findAllAlloc.1.readArray h.findAllAlloc.2 = h.manager.findAll) ∧
    ((h.findAllAlloc.1.removeH sessionId).readArray h.findAllAlloc.2 =
      h.manager.findAll) ∧
    ((h.findAllAlloc.1.createH k config).readArray h.findAllAlloc.2 =
      h.manager.findAll) ∧
    ((h.findAllAlloc.1.mutateArray h.findAllAlloc.2 v).manager = h.manager) := by
  have key : ∀ (l : List (List DebugAdapterSession))
      (x : List DebugAdapterSession), (l ++ [x]).getD l.length [] = x := by
    intro l x
    rw [List.getD_eq_getElem?_getD, List.getElem?_concat_length]
    rfl
  exact ⟨key h.arrays h.manager.findAll, key h.arrays h.manager.findAll,
    key h.arrays h.manager.findAll, rfl⟩

/-- C1 (divergence exhibit): `DebugServiceImpl.start` is
`session.start().then(() => session.id)` with no rejection handler, so when
the transport-level handshake fails the error is surfaced but the session is
NOT removed from the live map: at this concrete input `start` rejects with the
handshake error while the generated session id is still found in the map and
the session still appears in `findAll()`. -/
theorem start_handshake_failure_keeps_session :
    (DebugServiceImpl.start failingManager "sid-1" nodeConfig).1 =
      .error (.launchFailed "handshake failed") ∧
    (DebugServiceImpl.start failingManager "sid-1" nodeConfig).2.find "sid-1" =
      some { id := "sid-1",
             startResult := .error (.launchFailed "handshake failed") } ∧
    ({ id := "sid-1",
       startResult := .error (.launchFailed "handshake failed") } :
        DebugAdapterSession) ∈
      (DebugServiceImpl.start failingManager "sid-1" nodeConfig).2.findAll :=
  ⟨rfl, rfl, .head _⟩
